import Mathlib

/-!
Shallow embedding of the Luminex donation pipeline (backend services):
the Ledger Watcher and Reconciler (src/unnamed/part_013, class
BlockchainService), the Stream Listener and Fan-out Hub
(src/backend/src/services/sds-listener.ts), the cache helpers
(src/unnamed/part_016) and the configuration constants
(src/unnamed/part_020).

The persistent store is modelled as explicit lists of rows; each prisma
call becomes a pure function on that state.  Externally visible side
effects (pub/sub publishes, cache writes, leaderboard increments, the
campaign-completion write) are collected in an effect list.  JavaScript
Number conversions of bigints and decimal strings are modelled exactly
by rounding to 53 significand bits, round half to even.
-/

namespace Luminex

/-- Donation.status values of the Prisma schema. -/
inductive DonationStatus
  | PENDING
  | CONFIRMED
  | FAILED
  | ORPHANED
deriving DecidableEq, Repr

/-- Campaign.status values (lifecycle). -/
inductive CampaignStatus
  | ACTIVE
  | COMPLETED
deriving DecidableEq, Repr

/-- Withdrawal.status values used by handleWithdrawal. -/
inductive WithdrawalStatus
  | PROCESSING
  | COMPLETED
deriving DecidableEq, Repr

/-- A Donation row.  Rows are keyed by id; txHash carries a unique
constraint (findUnique by txHash).  Amounts are wei, stored exactly
(string / bigint in the source), so Nat.  Timestamps are Nat
milliseconds. -/
structure Donation where
  id : String
  txHash : String
  campaignId : String
  donorAddress : String
  amount : Nat
  message : Option String
  status : DonationStatus
  blockNumber : Option Nat
  blockTimestamp : Option Nat
  confirmedAt : Option Nat
  createdAt : Nat
  sdsEventId : Option String
deriving DecidableEq, Repr

/-- A Campaign row (the fields the pipeline reads and writes). -/
structure Campaign where
  id : String
  onChainId : String
  title : String
  sdsStreamId : String
  currentAmount : Nat
  donorCount : Nat
  targetAmount : Nat
  status : CampaignStatus
deriving DecidableEq, Repr

/-- A Donor aggregate row, keyed by address. -/
structure Donor where
  address : String
  totalDonated : Nat
  donationCount : Nat
  campaignCount : Nat
  firstDonationAt : Nat
  lastDonationAt : Nat
deriving DecidableEq, Repr

/-- A Withdrawal row (the fields handleWithdrawal touches). -/
structure Withdrawal where
  id : String
  campaignId : String
  toAddress : String
  amount : Nat
  status : WithdrawalStatus
  txHash : Option String
  blockNumber : Option Nat
  processedAt : Option Nat
deriving DecidableEq, Repr

/-- The persistent store. -/
structure DB where
  donations : List Donation
  campaigns : List Campaign
  donors : List Donor
  withdrawals : List Withdrawal
deriving DecidableEq, Repr

/-- Payload of the campaign_update pub/sub event (the progress
percentage field is derived and omitted). -/
structure CampaignUpdatePayload where
  campaignId : String
  currentAmount : Nat
  donorCount : Nat
deriving DecidableEq, Repr

/-- Payload of the donation realtime event built in handleDonationEvent;
donorAddress here is the raw (un-lowercased) donor string, exactly as
the source builds it. -/
structure DonationFeedPayload where
  txHash : String
  campaignId : String
  donorAddress : String
  amount : Nat
  status : DonationStatus
deriving DecidableEq, Repr

/-- Externally visible side effects, in program order.  markCompleted
records one execution of the campaign-completion write (the
prisma.campaign.update to status COMPLETED at part_013 lines 239-242);
zincrby records a leaderboard score increment, whose score argument is
the value the source passes (a JavaScript number). -/
inductive Effect
  | publishCampaignUpdate (p : CampaignUpdatePayload)
  | cacheDel (key : String)
  | markCompleted (campaignId : String)
  | pushFeed (key : String) (p : DonationFeedPayload)
  | zincrby (key : String) (member : String) (score : Nat)
  | publishDonation (p : DonationFeedPayload)
deriving DecidableEq, Repr

/-! ## JavaScript Number conversion, modelled exactly

Number(bigint) and parseFloat(decimal-integer-string) round the integer
to the nearest IEEE-754 double (round half to even).  For a nonnegative
integer the resulting double has an exact integer value, which we
compute: keep the top 53 bits and round.  The fuel of 1100 makes the
function structurally recursive and kernel-reducible; it is exact for
every input below 2 ^ 1153, far beyond any 256-bit amount. -/

/-- Number of bits of n beyond the 53-bit double significand. -/
def excessBitsAux : Nat → Nat → Nat
  | 0, _ => 0
  | fuel + 1, n => if n < 2 ^ 53 then 0 else excessBitsAux fuel (n / 2) + 1

/-- Number of bits of n beyond 53 (0 when n fits a double exactly). -/
def excessBits (n : Nat) : Nat := excessBitsAux 1100 n

/-- The integer value of the IEEE-754 double nearest to n: models the
source expressions Number(x) for a bigint x and parseFloat(s) for a
decimal integer string s. -/
def toNumber (n : Nat) : Nat :=
  let e := excessBits n
  if e = 0 then n
  else
    let q := n / 2 ^ e
    let r := n % 2 ^ e
    let half := 2 ^ (e - 1)
    (if half < r ∨ (r = half ∧ q % 2 = 1) then q + 1 else q) * 2 ^ e

/-- JavaScript toLowerCase as used on the addresses in play (ASCII hex
strings): lowercase applied per character.  String.toLower computes the
same characters but through String.mapAux, which does not reduce in the
kernel, so the map is taken over the character list. -/
def lowerAscii (s : String) : String := String.mk (s.data.map Char.toLower)

/-! ## Store lookups (prisma findUnique) -/

/-- prisma.donation.findUnique by the unique txHash. -/
def findDonationByTx : List Donation → String → Option Donation
  | [], _ => none
  | d :: rest, tx => if d.txHash = tx then some d else findDonationByTx rest tx

/-- prisma.campaign lookup by primary id. -/
def findCampaignById : List Campaign → String → Option Campaign
  | [], _ => none
  | c :: rest, cid => if c.id = cid then some c else findCampaignById rest cid

/-- prisma.campaign.findUnique by the unique onChainId. -/
def findCampaignByOnChainId : List Campaign → String → Option Campaign
  | [], _ => none
  | c :: rest, ocid => if c.onChainId = ocid then some c else findCampaignByOnChainId rest ocid

/-- prisma.donor.findUnique by the unique address (the upsert lookup). -/
def findDonorByAddress : List Donor → String → Option Donor
  | [], _ => none
  | d :: rest, addr => if d.address = addr then some d else findDonorByAddress rest addr

/-! ## The Aggregate Updater: updateCampaignTotals (part_013 lines 207-245)

prisma.campaign.update throws when the id is absent, hence Option.
The update returns the post-increment row; the completion check then
compares Number(currentAmount) >= Number(targetAmount) on that row and,
when it holds, writes status COMPLETED unconditionally. -/

def updateCampaignTotals (db : DB) (campaignId : String) (amountWei : Nat) :
    Option (DB × List Effect) :=
  match findCampaignById db.campaigns campaignId with
  | none => none
  | some c =>
    let c1 : Campaign :=
      { c with currentAmount := c.currentAmount + amountWei,
               donorCount := c.donorCount + 1 }
    let db1 : DB :=
      { db with campaigns := db.campaigns.map (fun x => if x.id = campaignId then c1 else x) }
    let effs : List Effect :=
      [Effect.publishCampaignUpdate ⟨campaignId, c1.currentAmount, c1.donorCount⟩,
       Effect.cacheDel ("campaign:" ++ campaignId),
       Effect.cacheDel "campaigns:*"]
    if toNumber c1.currentAmount ≥ toNumber c1.targetAmount then
      let complete : Campaign → Campaign :=
        fun x => if x.id = campaignId then { x with status := CampaignStatus.COMPLETED } else x
      some ({ db1 with campaigns := db1.campaigns.map complete },
            effs ++ [Effect.markCompleted campaignId])
    else
      some (db1, effs)

/-! ## Ledger Watcher: processDonationConfirmation (part_013 lines 142-205) -/

/-- A decoded DonationReceived chain event (campaignId as its decimal
string, as the source converts it). -/
structure ChainDonationEvent where
  campaignId : String
  donor : String
  amount : Nat
  message : Option String
  txHash : String
  blockNumber : Nat
  blockTimestamp : Nat
deriving DecidableEq, Repr

/-- processDonationConfirmation.  When no row exists for the txHash it
creates the Donation directly as CONFIRMED (campaign missing: log and
return).  When a row exists it updates that row to CONFIRMED and runs
updateCampaignTotals, with no check of the row's current status. -/
def processDonationConfirmation (db : DB) (now : Nat) (ev : ChainDonationEvent) :
    Option (DB × List Effect) :=
  match findDonationByTx db.donations ev.txHash with
  | none =>
    match findCampaignByOnChainId db.campaigns ev.campaignId with
    | none => some (db, [])
    | some campaign =>
      let d : Donation :=
        { id := ev.txHash, txHash := ev.txHash, campaignId := campaign.id,
          donorAddress := lowerAscii ev.donor, amount := ev.amount,
          message := ev.message, status := DonationStatus.CONFIRMED,
          blockNumber := some ev.blockNumber,
          blockTimestamp := some ev.blockTimestamp,
          confirmedAt := some now, createdAt := now, sdsEventId := none }
      updateCampaignTotals { db with donations := db.donations ++ [d] } campaign.id ev.amount
  | some donation =>
    let db1 : DB :=
      { db with donations := db.donations.map (fun x =>
          if x.id = donation.id then
            { x with status := DonationStatus.CONFIRMED,
                     blockNumber := some ev.blockNumber,
                     blockTimestamp := some ev.blockTimestamp,
                     confirmedAt := some now }
          else x) }
    updateCampaignTotals db1 donation.campaignId ev.amount

/-! ## Stream Listener: handleDonationEvent (sds-listener.ts lines 224-339)

Runs after the zod schema validation succeeded (invalid payloads are
logged and dropped before this point), so the payload type is already
the validated shape.  The amount arrives as a decimal integer string;
it is stored exactly (string / bigint increment) but the two
leaderboard increments pass parseFloat(amount). -/

/-- A validated SDS donation payload. -/
structure SdsDonationPayload where
  txHash : String
  campaignOnChainId : String
  donor : String
  amount : Nat
  message : Option String
  eventId : String
  timestamp : Nat
  blockNumber : Option Nat
deriving DecidableEq, Repr

/-- handleDonationEvent: duplicate txHash drops; unknown campaign
drops; otherwise create the PENDING Donation, upsert the Donor
aggregate keyed by the lowercased address, push the realtime payload to
the two capped feeds, increment the two leaderboards with
parseFloat(amount), and publish on the donations channel. -/
def handleDonationEvent (db : DB) (now : Nat) (p : SdsDonationPayload) :
    DB × List Effect :=
  match findDonationByTx db.donations p.txHash with
  | some _ => (db, [])
  | none =>
    match findCampaignByOnChainId db.campaigns p.campaignOnChainId with
    | none => (db, [])
    | some campaign =>
      let newDonation : Donation :=
        { id := p.txHash, txHash := p.txHash, campaignId := campaign.id,
          donorAddress := lowerAscii p.donor, amount := p.amount,
          message := p.message, status := DonationStatus.PENDING,
          blockNumber := p.blockNumber, blockTimestamp := none,
          confirmedAt := none, createdAt := now,
          sdsEventId := some p.eventId }
      let db1 : DB := { db with donations := db.donations ++ [newDonation] }
      let db2 : DB :=
        match findDonorByAddress db1.donors (lowerAscii p.donor) with
        | none =>
          { db1 with donors := db1.donors ++
              [{ address := lowerAscii p.donor, totalDonated := p.amount,
                 donationCount := 1, campaignCount := 1,
                 firstDonationAt := now, lastDonationAt := now }] }
        | some _ =>
          { db1 with donors := db1.donors.map (fun dr =>
              if dr.address = lowerAscii p.donor then
                { dr with totalDonated := dr.totalDonated + p.amount,
                          donationCount := dr.donationCount + 1,
                          lastDonationAt := now }
              else dr) }
      let payload : DonationFeedPayload :=
        { txHash := p.txHash, campaignId := campaign.id,
          donorAddress := p.donor, amount := p.amount,
          status := DonationStatus.PENDING }
      (db2,
       [Effect.pushFeed "donations:recent:global" payload,
        Effect.pushFeed ("donations:recent:campaign:" ++ campaign.id) payload,
        Effect.zincrby "leaderboard:global" (lowerAscii p.donor) (toNumber p.amount),
        Effect.zincrby ("leaderboard:campaign:" ++ campaign.id) (lowerAscii p.donor) (toNumber p.amount),
        Effect.publishDonation payload])

/-! ## Ledger Watcher: handleWithdrawal (part_013 lines 269-306) -/

/-- handleWithdrawal: find the campaign by onChainId and updateMany the
withdrawals matching campaignId, lowercased recipient address, amount
and status PROCESSING, marking them COMPLETED with settlement data. -/
def handleWithdrawal (db : DB) (now : Nat) (onChainId toAddress : String)
    (amount : Nat) (txHash : String) (blockNumber : Nat) : DB :=
  match findCampaignByOnChainId db.campaigns onChainId with
  | none => db
  | some campaign =>
    { db with withdrawals := db.withdrawals.map (fun w =>
        if w.campaignId = campaign.id ∧ w.toAddress = lowerAscii toAddress ∧
           w.amount = amount ∧ w.status = WithdrawalStatus.PROCESSING then
          { w with status := WithdrawalStatus.COMPLETED, txHash := some txHash,
                   blockNumber := some blockNumber, processedAt := some now }
        else w) }

/-! ## Reconciler: runReconciliation (part_013 lines 312-382) -/

/-- A transaction settlement receipt; status 1 means success. -/
structure Receipt where
  status : Nat
  blockNumber : Nat
deriving DecidableEq, Repr

/-- The per-donation body of the reconciliation loop (lines 326-377):
receipt with status 1 updates the row (by id, with no condition on its
current status) to CONFIRMED and runs updateCampaignTotals; receipt
with other status marks FAILED; no receipt marks ORPHANED.  The
argument d is the row as read by the sweep's findMany; the update is
applied to the current store db, which other writers may have changed
in between. -/
def reconcileOne (db : DB) (now : Nat) (d : Donation) (receipt : Option Receipt) :
    Option (DB × List Effect) :=
  match receipt with
  | some r =>
    if r.status = 1 then
      let db1 : DB := { db with donations := db.donations.map (fun x =>
        if x.id = d.id then
          { x with status := DonationStatus.CONFIRMED,
                   blockNumber := some r.blockNumber, confirmedAt := some now }
        else x) }
      updateCampaignTotals db1 d.campaignId d.amount
    else
      some ({ db with donations := db.donations.map (fun x =>
        if x.id = d.id then { x with status := DonationStatus.FAILED } else x) }, [])
  | none =>
    some ({ db with donations := db.donations.map (fun x =>
      if x.id = d.id then { x with status := DonationStatus.ORPHANED } else x) }, [])

/-- The sweep's findMany selection (lines 318-324): status PENDING and
createdAt older than the orphan cutoff (now minus orphanTimeoutMs). -/
def selectPendingOlderThan (db : DB) (cutoff : Nat) : List Donation :=
  db.donations.filter (fun d =>
    decide (d.status = DonationStatus.PENDING) && decide (d.createdAt < cutoff))

/-- One reconciliation run over a snapshot selection taken from db: for
each selected row, query the ledger by txHash and apply reconcileOne;
the per-item try/catch keeps the loop going when an item fails
(updateCampaignTotals on a missing campaign), leaving the store
untouched for that item. -/
def runReconciliation (db : DB) (now cutoff : Nat) (ledger : String → Option Receipt) :
    DB × List Effect :=
  (selectPendingOlderThan db cutoff).foldl
    (fun acc d =>
      match reconcileOne acc.1 now d (ledger d.txHash) with
      | some (db2, effs) => (db2, acc.2 ++ effs)
      | none => acc)
    (db, [])

/-! ## Stream Listener connection state (sds-listener.ts lines 20-141)

The reconnect logic as a state machine: handleDisconnect (lines
103-115) guards scheduleReconnect by reconnectAttempts <
maxReconnectAttempts and otherwise emits maxReconnectAttemptsReached;
the scheduled timer callback (lines 132-140) increments the counter,
tries to connect, and on failure calls scheduleReconnect again in its
catch block with no guard; a successful open handler (lines 47-58)
resets the counter. -/

/-- config.sds.maxReconnectAttempts (part_020 line 39). -/
def maxReconnectAttempts : Nat := 10

/-- config.sds.reconnectInterval in ms (part_020 line 38). -/
def reconnectInterval : Nat := 5000

/-- The delay computed by scheduleReconnect (lines 122-125):
min(reconnectInterval * 2 ^ attempts, 60000), where attempts is the
counter value when the attempt is scheduled. -/
def reconnectDelay (attempts : Nat) : Nat :=
  min (reconnectInterval * 2 ^ attempts) 60000

/-- The SdsConnectionState fields the reconnect logic reads and writes,
plus the pending timer and the emitted giving-up signal. -/
structure SdsConnState where
  connected : Bool
  reconnectAttempts : Nat
  timerSet : Bool
  gaveUp : Bool
deriving DecidableEq, Repr

/-- scheduleReconnect (lines 117-141): clears any pending timer and
sets a new one. -/
def scheduleReconnect (s : SdsConnState) : SdsConnState :=
  { s with timerSet := true }

/-- handleDisconnect (lines 103-115). -/
def handleDisconnect (s : SdsConnState) : SdsConnState :=
  let s1 : SdsConnState := { s with connected := false }
  if s1.reconnectAttempts < maxReconnectAttempts then scheduleReconnect s1
  else { s1 with gaveUp := true }

/-- The timer callback of scheduleReconnect (lines 132-140): increment
the counter, then await connect().  On success the open handler sets
connected and resets the counter to 0; on rejection the catch block
calls scheduleReconnect unconditionally. -/
def reconnectTimerFired (s : SdsConnState) (connectSucceeds : Bool) : SdsConnState :=
  let s1 : SdsConnState :=
    { s with timerSet := false, reconnectAttempts := s.reconnectAttempts + 1 }
  if connectSucceeds then
    { s1 with connected := true, reconnectAttempts := 0 }
  else
    scheduleReconnect s1

/-- State after n consecutive failed connect attempts from state s. -/
def failedReconnectRun (s : SdsConnState) : Nat → SdsConnState
  | 0 => s
  | n + 1 => reconnectTimerFired (failedReconnectRun s n) false

/-- The listener state at startup with a live connection. -/
def connectedSdsState : SdsConnState :=
  { connected := true, reconnectAttempts := 0, timerSet := false, gaveUp := false }

/-! ## Fan-out Hub: broadcastToStream (sds-listener.ts lines 590-608) -/

/-- A viewer connection: id and its subscribed stream set. -/
structure Client where
  id : String
  subscribedStreams : List String
deriving DecidableEq, Repr

/-- The delivery condition of broadcastToStream (lines 595-597):
subscribed to this stream, or to the wildcard, or subscribed to
"donations" while the event type is "donation". -/
def wantsDelivery (c : Client) (stream evType : String) : Bool :=
  c.subscribedStreams.contains stream || c.subscribedStreams.contains "*" ||
  (c.subscribedStreams.contains "donations" && evType == "donation")

/-- broadcastToStream: one pass over the client map, sending to every
client satisfying the delivery condition; returns the ids sent to, in
order. -/
def broadcastToStream (clients : List Client) (stream evType : String) : List String :=
  (clients.filter (fun c => wantsDelivery c stream evType)).map (fun c => c.id)

/-- The spec's delivery condition: the event's channel, or the
wildcard, is in the subscription set (used to compare against
wantsDelivery). -/
def specDelivery (c : Client) (stream : String) : Bool :=
  c.subscribedStreams.contains stream || c.subscribedStreams.contains "*"

/-- The leaderboard increments among an effect list, in order:
(sorted-set key, member, score). -/
def lbIncrements : List Effect → List (String × String × Nat)
  | [] => []
  | Effect.zincrby k m s :: rest => (k, m, s) :: lbIncrements rest
  | _ :: rest => lbIncrements rest

/-! ## Concrete fixtures for the evaluation theorems -/

namespace Fx

/-- An active campaign, 5 wei raised of a 100 wei target. -/
def camp1 : Campaign :=
  { id := "c1", onChainId := "1", title := "t", sdsStreamId := "s1",
    currentAmount := 5, donorCount := 1, targetAmount := 100,
    status := CampaignStatus.ACTIVE }

/-- A donation on camp1 that is already CONFIRMED. -/
def donConfirmed : Donation :=
  { id := "0xaa", txHash := "0xaa", campaignId := "c1",
    donorAddress := "0xd", amount := 5, message := none,
    status := DonationStatus.CONFIRMED, blockNumber := some 10,
    blockTimestamp := some 3, confirmedAt := some 4, createdAt := 1,
    sdsEventId := none }

/-- Store holding camp1 and its already-confirmed donation. -/
def dbDup : DB :=
  { donations := [donConfirmed], campaigns := [camp1], donors := [], withdrawals := [] }

/-- The ledger notification for the already-confirmed transaction,
redelivered. -/
def evDup : ChainDonationEvent :=
  { campaignId := "1", donor := "0xd", amount := 5, message := none,
    txHash := "0xaa", blockNumber := 11, blockTimestamp := 9 }

/-- A campaign that already COMPLETED (100 raised of a 50 target). -/
def campDone : Campaign :=
  { id := "c2", onChainId := "2", title := "t2", sdsStreamId := "s2",
    currentAmount := 100, donorCount := 3, targetAmount := 50,
    status := CampaignStatus.COMPLETED }

/-- Store holding the completed campaign. -/
def dbDone : DB :=
  { donations := [], campaigns := [campDone], donors := [], withdrawals := [] }

/-- A large active campaign for the race scenario. -/
def campRace : Campaign :=
  { id := "c1", onChainId := "1", title := "t", sdsStreamId := "s1",
    currentAmount := 0, donorCount := 0, targetAmount := 1000,
    status := CampaignStatus.ACTIVE }

/-- A stale PENDING donation (created at 0) on campRace. -/
def donPend : Donation :=
  { id := "0xaa", txHash := "0xaa", campaignId := "c1",
    donorAddress := "0xd", amount := 5, message := none,
    status := DonationStatus.PENDING, blockNumber := none,
    blockTimestamp := none, confirmedAt := none, createdAt := 0,
    sdsEventId := some "e1" }

/-- Store at the start of the race scenario. -/
def dbRace : DB :=
  { donations := [donPend], campaigns := [campRace], donors := [], withdrawals := [] }

/-- The ledger confirmation for donPend's transaction. -/
def evRace : ChainDonationEvent :=
  { campaignId := "1", donor := "0xd", amount := 5, message := none,
    txHash := "0xaa", blockNumber := 11, blockTimestamp := 9 }

/-- Store with camp1 and no donations (the stream never announced). -/
def dbBB : DB :=
  { donations := [], campaigns := [camp1], donors := [], withdrawals := [] }

/-- A ledger confirmation whose transaction the stream never announced. -/
def evBB : ChainDonationEvent :=
  { campaignId := "1", donor := "0xD", amount := 7, message := none,
    txHash := "0xbb", blockNumber := 12, blockTimestamp := 9 }

/-- 2 ^ 53 + 1: the smallest integer a double cannot represent. -/
def bigAmt : Nat := 2 ^ 53 + 1

/-- Store for the leaderboard-rounding scenario. -/
def dbL : DB :=
  { donations := [], campaigns := [camp1], donors := [], withdrawals := [] }

/-- A valid stream payload donating 2 ^ 53 + 1 wei. -/
def pL : SdsDonationPayload :=
  { txHash := "0xcc", campaignOnChainId := "1", donor := "0xd",
    amount := bigAmt, message := none, eventId := "e1", timestamp := 1,
    blockNumber := none }

/-- A campaign whose target is 2 ^ 53 + 1 with nothing raised yet. -/
def campT : Campaign :=
  { id := "cT", onChainId := "9", title := "t", sdsStreamId := "s9",
    currentAmount := 0, donorCount := 0, targetAmount := bigAmt,
    status := CampaignStatus.ACTIVE }

/-- Store for the threshold-rounding scenario. -/
def dbT : DB :=
  { donations := [], campaigns := [campT], donors := [], withdrawals := [] }

/-- A viewer subscribed only to the donations channel. -/
def clientD : Client := { id := "k1", subscribedStreams := ["donations"] }

/-- A replayed stream payload for the already-recorded tx 0xaa. -/
def pDup : SdsDonationPayload :=
  { txHash := "0xaa", campaignOnChainId := "1", donor := "0xd", amount := 5,
    message := none, eventId := "e2", timestamp := 2, blockNumber := none }

/-- An existing donor aggregate row for address 0xd. -/
def drD : Donor :=
  { address := "0xd", totalDonated := 10, donationCount := 2, campaignCount := 1,
    firstDonationAt := 1, lastDonationAt := 2 }

/-- Store with camp1 and the existing donor 0xd. -/
def dbDonor : DB :=
  { donations := [], campaigns := [camp1], donors := [drD], withdrawals := [] }

/-- A fresh stream payload from the same donor in upper case. -/
def pDonor : SdsDonationPayload :=
  { txHash := "0xee", campaignOnChainId := "1", donor := "0xD", amount := 7,
    message := none, eventId := "e3", timestamp := 3, blockNumber := none }

end Fx

/-! ## Lemmas about the store lookups -/

theorem findCampaignById_id_eq : ∀ {l : List Campaign} {cid : String} {c : Campaign},
    findCampaignById l cid = some c → c.id = cid
  | [], _, _, h => by simp [findCampaignById] at h
  | x :: rest, cid, c, h => by
    rw [findCampaignById] at h
    split at h
    · cases h; assumption
    · exact findCampaignById_id_eq h

theorem findCampaignById_mem : ∀ {l : List Campaign} {cid : String} {c : Campaign},
    findCampaignById l cid = some c → c ∈ l
  | [], _, _, h => by simp [findCampaignById] at h
  | x :: rest, cid, c, h => by
    rw [findCampaignById] at h
    split at h
    · cases h; exact List.mem_cons_self x rest
    · exact List.mem_cons_of_mem x (findCampaignById_mem h)

theorem findCampaignById_map (f : Campaign → Campaign) (hf : ∀ x, (f x).id = x.id) :
    ∀ (l : List Campaign) (cid : String),
      findCampaignById (l.map f) cid = (findCampaignById l cid).map f
  | [], _ => rfl
  | x :: rest, cid => by
    rw [List.map_cons, findCampaignById, findCampaignById, hf x]
    split
    · rfl
    · exact findCampaignById_map f hf rest cid

theorem findDonorByAddress_addr_eq : ∀ {l : List Donor} {key : String} {d : Donor},
    findDonorByAddress l key = some d → d.address = key
  | [], _, _, h => by simp [findDonorByAddress] at h
  | x :: rest, key, d, h => by
    rw [findDonorByAddress] at h
    split at h
    · cases h; assumption
    · exact findDonorByAddress_addr_eq h

theorem findDonorByAddress_map (f : Donor → Donor) (hf : ∀ x, (f x).address = x.address) :
    ∀ (l : List Donor) (key : String),
      findDonorByAddress (l.map f) key = (findDonorByAddress l key).map f
  | [], _ => rfl
  | x :: rest, key => by
    rw [List.map_cons, findDonorByAddress, findDonorByAddress, hf x]
    split
    · rfl
    · exact findDonorByAddress_map f hf rest key

theorem findDonationByTx_append {l : List Donation} {tx : String} (d : Donation)
    (h : findDonationByTx l tx = none) :
    findDonationByTx (l ++ [d]) tx = if d.txHash = tx then some d else none := by
  induction l with
  | nil => rfl
  | cons x rest ih =>
    rw [findDonationByTx] at h
    rw [List.cons_append, findDonationByTx]
    by_cases hx : x.txHash = tx
    · rw [if_pos hx] at h
      cases h
    · rw [if_neg hx] at h
      rw [if_neg hx]
      exact ih h

/-! ## Behaviour of the Aggregate Updater on a present campaign -/

/-- The singleton-overwrite map of a campaign update preserves ids when
the written row carries the looked-up id. -/
theorem overwriteById_id (v : Campaign) (cid : String) (hv : v.id = cid) :
    ∀ x : Campaign, ((fun x => if x.id = cid then v else x) x).id = x.id := by
  intro x
  by_cases hx : x.id = cid <;> simp [hx, hv]

/-- The completion map of updateCampaignTotals preserves ids. -/
theorem completeById_id (cid : String) :
    ∀ x : Campaign,
      ((fun x => if x.id = cid then { x with status := CampaignStatus.COMPLETED } else x) x).id
        = x.id := by
  intro x
  by_cases hx : x.id = cid <;> simp [hx]

theorem updateCampaignTotals_spec (db : DB) (cid : String) (amt : Nat) (c : Campaign)
    (h : findCampaignById db.campaigns cid = some c) :
    ∃ db2 effs, updateCampaignTotals db cid amt = some (db2, effs) ∧
      db2.donations = db.donations ∧ db2.donors = db.donors ∧
      db2.withdrawals = db.withdrawals ∧
      (∃ c2, findCampaignById db2.campaigns cid = some c2 ∧
        c2.currentAmount = c.currentAmount + amt ∧ c2.donorCount = c.donorCount + 1) ∧
      (Effect.markCompleted cid ∈ effs ↔
        toNumber c.targetAmount ≤ toNumber (c.currentAmount + amt)) := by
  have hcid : c.id = cid := findCampaignById_id_eq h
  have hc1id : (Campaign.mk c.id c.onChainId c.title c.sdsStreamId
      (c.currentAmount + amt) (c.donorCount + 1) c.targetAmount c.status).id = cid := hcid
  unfold updateCampaignTotals
  rw [h]
  dsimp only
  have hfind1 := findCampaignById_map _ (overwriteById_id _ cid hc1id) db.campaigns cid
  rw [h] at hfind1
  simp only [Option.map_some', if_pos hcid] at hfind1
  split
  · rename_i hth
    refine ⟨_, _, rfl, rfl, rfl, rfl, ?_, ?_⟩
    · refine ⟨Campaign.mk c.id c.onChainId c.title c.sdsStreamId (c.currentAmount + amt)
        (c.donorCount + 1) c.targetAmount CampaignStatus.COMPLETED, ?_, rfl, rfl⟩
      rw [findCampaignById_map _ (completeById_id cid), hfind1]
      simp only [Option.map_some']
      rw [if_pos hc1id]
    · simp only [List.mem_append, List.mem_cons, List.not_mem_nil]
      constructor
      · intro _
        exact ge_iff_le.mp hth
      · intro _
        simp
  · rename_i hth
    refine ⟨_, _, rfl, rfl, rfl, rfl, ⟨_, hfind1, rfl, rfl⟩, ?_⟩
    constructor
    · intro hmem
      simp at hmem
    · intro hle
      exact absurd (ge_iff_le.mpr hle) hth

/-! ## Claim theorems for the Reconciler orphan path -/

/-- Claim C7: the sweep selects exactly the PENDING donations older
than the orphan cutoff, so a donation whose status is CONFIRMED,
FAILED or ORPHANED is excluded from every future sweep; and when the
ledger returns no receipt for a selected donation, the Reconciler sets
only that row's status to ORPHANED, with no campaign, donor or
withdrawal change and no published effect. -/
theorem c7_pending_sweep_orphans_terminally :
    (∀ (db : DB) (cutoff : Nat) (d : Donation),
       d ∈ selectPendingOlderThan db cutoff ↔
         d ∈ db.donations ∧ d.status = DonationStatus.PENDING ∧ d.createdAt < cutoff) ∧
    (∀ (db : DB) (now : Nat) (d : Donation),
       ∃ db2, reconcileOne db now d none = some (db2, []) ∧
         db2.campaigns = db.campaigns ∧ db2.donors = db.donors ∧
         db2.withdrawals = db.withdrawals ∧
         ∀ x2 ∈ db2.donations,
           (x2.id = d.id → x2.status = DonationStatus.ORPHANED) ∧
           (x2.id ≠ d.id → x2 ∈ db.donations)) := by
  constructor
  · intro db cutoff d
    simp [selectPendingOlderThan, List.mem_filter]
  · intro db now d
    refine ⟨_, rfl, rfl, rfl, rfl, ?_⟩
    intro x2 hx2
    obtain ⟨x, hx, hfx⟩ := List.mem_map.mp hx2
    by_cases hid : x.id = d.id
    · rw [if_pos hid] at hfx
      subst hfx
      exact ⟨fun _ => rfl, fun hne => absurd hid hne⟩
    · rw [if_neg hid] at hfx
      subst hfx
      exact ⟨fun hEq => absurd hEq hid, fun _ => hx⟩

/-- Witness for C7: the stale PENDING donation is selected by the
sweep, and orphaning it leaves everything else untouched. -/
theorem c7_witness :
    (Fx.donPend ∈ Fx.dbRace.donations ∧
       Fx.donPend.status = DonationStatus.PENDING ∧ Fx.donPend.createdAt < 100) ∧
    Fx.donPend ∈ selectPendingOlderThan Fx.dbRace 100 ∧
    ∃ db2, reconcileOne Fx.dbRace 9 Fx.donPend none = some (db2, []) ∧
      db2.campaigns = Fx.dbRace.campaigns ∧ db2.donors = Fx.dbRace.donors ∧
      db2.withdrawals = Fx.dbRace.withdrawals ∧
      ∀ x2 ∈ db2.donations,
        (x2.id = Fx.donPend.id → x2.status = DonationStatus.ORPHANED) ∧
        (x2.id ≠ Fx.donPend.id → x2 ∈ Fx.dbRace.donations) :=
  ⟨⟨by decide, by decide, by decide⟩,
   (c7_pending_sweep_orphans_terminally.1 Fx.dbRace 100 Fx.donPend).mpr
     ⟨by decide, by decide, by decide⟩,
   c7_pending_sweep_orphans_terminally.2 Fx.dbRace 9 Fx.donPend⟩

/-! ## Claim theorems for the Aggregate Updater completion transition -/

/-- Claim C2 as amended: updateCampaignTotals marks the campaign
COMPLETED whenever its post-increment total passes the (Number-rounded)
threshold, with no guard on the current status, so the completion
write re-fires for every later confirmed donation on an
already-COMPLETED campaign; the write only ever sets COMPLETED, so the
status itself never reverts to ACTIVE (one-way in effect). -/
theorem c2_amended_completion_unguarded_one_way :
    ∀ (db : DB) (cid : String) (amt : Nat) (db2 : DB) (effs : List Effect),
      updateCampaignTotals db cid amt = some (db2, effs) →
      (∀ c2 ∈ db2.campaigns, c2.status = CampaignStatus.ACTIVE →
         ∃ c ∈ db.campaigns, c.id = c2.id ∧ c.status = CampaignStatus.ACTIVE) ∧
      (Effect.markCompleted cid ∈ effs ↔
         ∃ c, findCampaignById db.campaigns cid = some c ∧
           toNumber c.targetAmount ≤ toNumber (c.currentAmount + amt)) := by
  intro db cid amt db2 effs h
  cases hfind : findCampaignById db.campaigns cid with
  | none =>
    unfold updateCampaignTotals at h
    rw [hfind] at h
    cases h
  | some c =>
    have hcid : c.id = cid := findCampaignById_id_eq hfind
    unfold updateCampaignTotals at h
    rw [hfind] at h
    dsimp only at h
    split at h
    · rename_i hth
      simp only [Option.some.injEq, Prod.mk.injEq] at h
      obtain ⟨hdb2, heffs⟩ := h
      subst hdb2
      subst heffs
      constructor
      · intro c2 hc2 hact
        obtain ⟨y, hy, hgy⟩ := List.mem_map.mp hc2
        obtain ⟨x, hx, hfx⟩ := List.mem_map.mp hy
        subst hfx
        subst hgy
        by_cases hxid : x.id = cid
        · exfalso
          simp [hxid, hcid] at hact
        · simp only [if_neg hxid] at hact ⊢
          exact ⟨x, hx, rfl, hact⟩
      · constructor
        · intro _
          exact ⟨c, rfl, by simpa using hth⟩
        · intro _
          simp
    · rename_i hth
      simp only [Option.some.injEq, Prod.mk.injEq] at h
      obtain ⟨hdb2, heffs⟩ := h
      subst hdb2
      subst heffs
      constructor
      · intro c2 hc2 hact
        obtain ⟨x, hx, hfx⟩ := List.mem_map.mp hc2
        subst hfx
        by_cases hxid : x.id = cid
        · simp only [if_pos hxid] at hact ⊢
          refine ⟨c, findCampaignById_mem hfind, by simp [hcid, hxid], ?_⟩
          simpa using hact
        · simp only [if_neg hxid] at hact ⊢
          exact ⟨x, hx, rfl, hact⟩
      · constructor
        · intro hmem
          simp at hmem
        · intro hex
          obtain ⟨c', hc', hle⟩ := hex
          injection hc' with hcc
          subst hcc
          exact absurd (by simpa using hle : _ ≥ _) hth

/-- Witness for C2's amended theorem at the fixture: a further
donation on the completed campaign keeps the status COMPLETED (no
ACTIVE row exists afterwards) and re-fires the completion write. -/
theorem c2_amended_witness :
    ∃ db2 effs, updateCampaignTotals Fx.dbDone "c2" 5 = some (db2, effs) ∧
      ((∀ c2 ∈ db2.campaigns, c2.status = CampaignStatus.ACTIVE →
          ∃ c ∈ Fx.dbDone.campaigns, c.id = c2.id ∧ c.status = CampaignStatus.ACTIVE) ∧
       (Effect.markCompleted "c2" ∈ effs ↔
          ∃ c, findCampaignById Fx.dbDone.campaigns "c2" = some c ∧
            toNumber c.targetAmount ≤ toNumber (c.currentAmount + 5))) := by
  refine ⟨_, _, rfl, ?_⟩
  exact c2_amended_completion_unguarded_one_way Fx.dbDone "c2" 5 _ _ rfl

/-! ## Claim theorems for the ledger-first creation path -/

/-- Claim C4 as amended: a settlement notification for a transaction
with no Donation row creates the Donation directly as CONFIRMED (with
the lowercased donor address and the settlement block) and updates the
campaign aggregates exactly as the stream-first confirmation does —
currentAmount plus the amount, donorCount plus one — but the Donor
aggregate is not updated at all on this path: the donor upsert happens
only in the Stream Listener when the PENDING row is created. -/
theorem c4_amended_ledger_first_campaign_only :
    ∀ (db : DB) (now : Nat) (ev : ChainDonationEvent) (c : Campaign),
      findDonationByTx db.donations ev.txHash = none →
      findCampaignByOnChainId db.campaigns ev.campaignId = some c →
      findCampaignById db.campaigns c.id = some c →
      ∃ db2 effs, processDonationConfirmation db now ev = some (db2, effs) ∧
        db2.donors = db.donors ∧
        (∃ d, findDonationByTx db2.donations ev.txHash = some d ∧
           d.status = DonationStatus.CONFIRMED ∧
           d.donorAddress = lowerAscii ev.donor ∧ d.amount = ev.amount ∧
           d.blockNumber = some ev.blockNumber) ∧
        (∃ c2, findCampaignById db2.campaigns c.id = some c2 ∧
           c2.currentAmount = c.currentAmount + ev.amount ∧
           c2.donorCount = c.donorCount + 1) := by
  intro db now ev c h1 h2 h3
  unfold processDonationConfirmation
  rw [h1, h2]
  dsimp only
  obtain ⟨db2, effs, heq, hdon, hdrs, hwd, ⟨c2, hc2, hcur, hcnt⟩, _⟩ :=
    updateCampaignTotals_spec
      { db with donations := db.donations ++
          [{ id := ev.txHash, txHash := ev.txHash, campaignId := c.id,
             donorAddress := lowerAscii ev.donor, amount := ev.amount,
             message := ev.message, status := DonationStatus.CONFIRMED,
             blockNumber := some ev.blockNumber,
             blockTimestamp := some ev.blockTimestamp,
             confirmedAt := some now, createdAt := now, sdsEventId := none }] }
      c.id ev.amount c h3
  refine ⟨db2, effs, heq, hdrs, ?_, ⟨c2, hc2, hcur, hcnt⟩⟩
  rw [hdon]
  rw [findDonationByTx_append _ h1]
  exact ⟨_, if_pos rfl, rfl, rfl, rfl, rfl⟩

/-- Witness for C4's amended theorem at the fixture: the never-
announced tx 0xbb is created CONFIRMED and the campaign totals rise
from (5, 1) to (12, 2) while the donor table stays empty. -/
theorem c4_amended_witness :
    (findDonationByTx Fx.dbBB.donations Fx.evBB.txHash = none ∧
     findCampaignByOnChainId Fx.dbBB.campaigns Fx.evBB.campaignId = some Fx.camp1 ∧
     findCampaignById Fx.dbBB.campaigns Fx.camp1.id = some Fx.camp1) ∧
    ∃ db2 effs, processDonationConfirmation Fx.dbBB 7 Fx.evBB = some (db2, effs) ∧
      db2.donors = Fx.dbBB.donors ∧
      (∃ d, findDonationByTx db2.donations Fx.evBB.txHash = some d ∧
         d.status = DonationStatus.CONFIRMED ∧
         d.donorAddress = lowerAscii Fx.evBB.donor ∧ d.amount = Fx.evBB.amount ∧
         d.blockNumber = some Fx.evBB.blockNumber) ∧
      (∃ c2, findCampaignById db2.campaigns Fx.camp1.id = some c2 ∧
         c2.currentAmount = Fx.camp1.currentAmount + Fx.evBB.amount ∧
         c2.donorCount = Fx.camp1.donorCount + 1) :=
  ⟨⟨by decide, by decide, by decide⟩,
   c4_amended_ledger_first_campaign_only Fx.dbBB 7 Fx.evBB Fx.camp1
     (by decide) (by decide) (by decide)⟩

/-! ## Claim theorems for the Stream Listener duplicate path -/

/-- Claim C8: a stream donation announcement whose transaction hash
already has a Donation row is dropped as a silent no-op: the store is
returned unchanged and no feed push, leaderboard increment or publish
is emitted. -/
theorem c8_duplicate_stream_event_silent_noop :
    ∀ (db : DB) (now : Nat) (p : SdsDonationPayload) (d : Donation),
      findDonationByTx db.donations p.txHash = some d →
      handleDonationEvent db now p = (db, []) := by
  intro db now p d h
  unfold handleDonationEvent
  rw [h]

/-- Witness for C8 at the fixture: the replayed payload for the
already-confirmed tx 0xaa leaves the store untouched. -/
theorem c8_witness :
    findDonationByTx Fx.dbDup.donations Fx.pDup.txHash = some Fx.donConfirmed ∧
    handleDonationEvent Fx.dbDup 9 Fx.pDup = (Fx.dbDup, []) :=
  ⟨by decide, c8_duplicate_stream_event_silent_noop Fx.dbDup 9 Fx.pDup Fx.donConfirmed (by decide)⟩

/-! ## Theorems -/

/-- Claim C1.  The claim states that a ledger donation-settled
notification for a transaction whose Donation row is already CONFIRMED
is a no-op.  The code has no status check on the existing-row path: at
the failing input (redelivery of the confirmation for the CONFIRMED
row 0xaa) it runs updateCampaignTotals again, raising currentAmount
from 5 to 10 and donorCount from 1 to 2, so the aggregate increment is
applied twice. -/
theorem c1_confirmed_redelivery_double_counts :
    (findDonationByTx Fx.dbDup.donations "0xaa").map Donation.status =
      some DonationStatus.CONFIRMED ∧
    (processDonationConfirmation Fx.dbDup 7 Fx.evDup).map
      (fun r => (findCampaignById r.1.campaigns "c1").map
        (fun c => (c.currentAmount, c.donorCount))) = some (some (10, 2)) := by
  decide

/-- Claim C2 counterexample.  On a campaign that is already COMPLETED
(100 raised of a 50 target), a further confirmed donation makes
updateCampaignTotals execute the completion write again: the
markCompleted effect fires although the status transition should have
been one-shot. -/
theorem c2_completion_write_refires :
    (findCampaignById Fx.dbDone.campaigns "c2").map Campaign.status =
      some CampaignStatus.COMPLETED ∧
    (updateCampaignTotals Fx.dbDone "c2" 5).map
      (fun r => decide (Effect.markCompleted "c2" ∈ r.2)) = some true := by
  decide

/-- Claim C3.  The claim states the Reconciler's PENDING to CONFIRMED
write is guarded on the row's current status so a concurrent
confirmation is not double-counted.  The code updates by id with no
status condition: at the failing input the sweep snapshots the stale
PENDING row, the Ledger Watcher confirms it (totals 5, donor count 1),
and the Reconciler then re-confirms the already-CONFIRMED row and runs
updateCampaignTotals again, ending with one CONFIRMED row but totals
10 and donor count 2. -/
theorem c3_reconciler_race_double_counts :
    selectPendingOlderThan Fx.dbRace 100 = [Fx.donPend] ∧
    ((processDonationConfirmation Fx.dbRace 7 Fx.evRace).bind (fun r1 =>
      (reconcileOne r1.1 8 Fx.donPend (some { status := 1, blockNumber := 11 })).map
        (fun r2 =>
          (r2.1.donations.map (fun d => (d.txHash, d.status)),
           (findCampaignById r2.1.campaigns "c1").map
             (fun c => (c.currentAmount, c.donorCount)))))) =
      some ([("0xaa", DonationStatus.CONFIRMED)], some (10, 2)) := by
  decide

/-- Claim C4 counterexample.  A ledger confirmation for a transaction
the stream never announced creates the Donation directly as CONFIRMED,
but leaves the donor table empty: the Donor aggregate is not
incremented at all on the ledger-first path, while the stream-first
path increments it. -/
theorem c4_ledger_first_skips_donor_aggregate :
    (processDonationConfirmation Fx.dbBB 7 Fx.evBB).map (fun r =>
      ((findDonationByTx r.1.donations "0xbb").map Donation.status, r.1.donors)) =
      some (some DonationStatus.CONFIRMED, []) ∧
    (handleDonationEvent Fx.dbBB 7
      { txHash := "0xbb", campaignOnChainId := "1", donor := "0xD", amount := 7,
        message := none, eventId := "e9", timestamp := 1, blockNumber := none
        }).1.donors.map Donor.donationCount = [1] := by
  decide

/-- Claim C5 counterexample.  At amount 2 ^ 53 + 1 the leaderboard
score increment is parseFloat(amount) = 2 ^ 53, not the amount; and
with 2 ^ 53 raised of a 2 ^ 53 + 1 target, the completion check
compares Number-rounded values, fires markCompleted, although the
exact running total is still below target.  So neither the leaderboard
increment nor the threshold comparison is exact integer arithmetic. -/
theorem c5_number_conversion_breaks_exactness :
    (Fx.pL.amount = 2 ^ 53 + 1 ∧
     lbIncrements (handleDonationEvent Fx.dbL 7 Fx.pL).2 =
       [("leaderboard:global", "0xd", 2 ^ 53),
        ("leaderboard:campaign:c1", "0xd", 2 ^ 53)]) ∧
    ((updateCampaignTotals Fx.dbT "cT" (2 ^ 53)).map
        (fun r => decide (Effect.markCompleted "cT" ∈ r.2)) = some true ∧
     Fx.campT.currentAmount + 2 ^ 53 < Fx.campT.targetAmount) := by
  decide

/-- Claim C6.  The claim states that once the reconnect counter
reaches maxReconnectAttempts = 10 no further reconnect attempt is ever
scheduled, on any failure path.  The catch block of the reconnect
timer callback calls scheduleReconnect with no guard, so at the
failing input (a disconnect followed by 12 consecutive failed connect
attempts) the counter reaches 12, a further attempt is still scheduled
and the giving-up signal was never emitted.  The delay formula itself
matches the claim: min(5000 * 2 ^ n, 60000). -/
theorem c6_reconnect_budget_not_enforced :
    maxReconnectAttempts = 10 ∧
    (failedReconnectRun (handleDisconnect connectedSdsState) 12).reconnectAttempts = 12 ∧
    (failedReconnectRun (handleDisconnect connectedSdsState) 12).timerSet = true ∧
    (failedReconnectRun (handleDisconnect connectedSdsState) 12).gaveUp = false ∧
    reconnectDelay 0 = 5000 ∧ reconnectDelay 2 = 20000 ∧
    reconnectDelay 4 = 60000 ∧ reconnectDelay 30 = 60000 := by
  decide

/-- Claim C9 counterexample.  A viewer subscribed only to the
donations channel receives the delivery of a donation-typed event
broadcast on channel campaign:c1, although neither campaign:c1 nor the
wildcard is in its subscription set: delivery is not an iff with the
subscription set. -/
theorem c9_extra_delivery_disjunct :
    broadcastToStream [Fx.clientD] "campaign:c1" "donation" = ["k1"] ∧
    specDelivery Fx.clientD "campaign:c1" = false := by
  decide


/-! ## Claim theorems for the arithmetic on amounts -/

/-- Claim C5 as amended: the campaign aggregate increment and the
donor aggregate increment are exact arbitrary-precision integer
arithmetic on the amounts, but the two leaderboard score increments
pass the amount through parseFloat and the completion-threshold
comparison compares Number-converted totals, both rounded to the
53-bit double significand. -/
theorem c5_amended_exact_db_rounded_cache :
    (∀ (db : DB) (cid : String) (amt : Nat) (c : Campaign),
       findCampaignById db.campaigns cid = some c →
       ∃ db2 effs, updateCampaignTotals db cid amt = some (db2, effs) ∧
         (∃ c2, findCampaignById db2.campaigns cid = some c2 ∧
            c2.currentAmount = c.currentAmount + amt) ∧
         (Effect.markCompleted cid ∈ effs ↔
            toNumber c.targetAmount ≤ toNumber (c.currentAmount + amt))) ∧
    (∀ (db : DB) (now : Nat) (p : SdsDonationPayload),
       (handleDonationEvent db now p).2 = [] ∨
       ∃ cid, lbIncrements (handleDonationEvent db now p).2 =
         [("leaderboard:global", lowerAscii p.donor, toNumber p.amount),
          ("leaderboard:campaign:" ++ cid, lowerAscii p.donor, toNumber p.amount)]) ∧
    (∀ (db : DB) (now : Nat) (p : SdsDonationPayload) (c : Campaign) (dr : Donor),
       findDonationByTx db.donations p.txHash = none →
       findCampaignByOnChainId db.campaigns p.campaignOnChainId = some c →
       findDonorByAddress db.donors (lowerAscii p.donor) = some dr →
       ∃ dr2, findDonorByAddress (handleDonationEvent db now p).1.donors
           (lowerAscii p.donor) = some dr2 ∧
         dr2.totalDonated = dr.totalDonated + p.amount ∧
         dr2.donationCount = dr.donationCount + 1) := by
  refine ⟨?_, ?_, ?_⟩
  · intro db cid amt c h
    obtain ⟨db2, effs, heq, _, _, _, ⟨c2, hfind2, hcur, _⟩, hiff⟩ :=
      updateCampaignTotals_spec db cid amt c h
    exact ⟨db2, effs, heq, ⟨c2, hfind2, hcur⟩, hiff⟩
  · intro db now p
    unfold handleDonationEvent
    cases hfind : findDonationByTx db.donations p.txHash with
    | some d => exact Or.inl rfl
    | none =>
      cases hcamp : findCampaignByOnChainId db.campaigns p.campaignOnChainId with
      | none => exact Or.inl rfl
      | some c => exact Or.inr ⟨c.id, rfl⟩
  · intro db now p c dr h1 h2 h3
    unfold handleDonationEvent
    rw [h1, h2]
    dsimp only
    rw [h3]
    dsimp only
    have hf : ∀ x : Donor,
        ((fun dr => if dr.address = lowerAscii p.donor then
            { dr with totalDonated := dr.totalDonated + p.amount,
                      donationCount := dr.donationCount + 1,
                      lastDonationAt := now } else dr) x).address = x.address := by
      intro x
      by_cases hx : x.address = lowerAscii p.donor <;> simp [hx]
    rw [findDonorByAddress_map _ hf, h3]
    have haddr : dr.address = lowerAscii p.donor := findDonorByAddress_addr_eq h3
    refine ⟨_, rfl, ?_, ?_⟩ <;> simp [haddr]

/-- Witness for C5 amended at the fixtures: exact campaign increment on
dbT, rounded leaderboard scores for the big payload, and exact donor
increment for the existing donor 0xd. -/
theorem c5_amended_witness :
    (findCampaignById Fx.dbT.campaigns "cT" = some Fx.campT ∧
     ∃ db2 effs, updateCampaignTotals Fx.dbT "cT" 5 = some (db2, effs) ∧
       (∃ c2, findCampaignById db2.campaigns "cT" = some c2 ∧
          c2.currentAmount = Fx.campT.currentAmount + 5) ∧
       (Effect.markCompleted "cT" ∈ effs ↔
          toNumber Fx.campT.targetAmount ≤ toNumber (Fx.campT.currentAmount + 5))) ∧
    ((handleDonationEvent Fx.dbL 7 Fx.pL).2 = [] ∨
     ∃ cid, lbIncrements (handleDonationEvent Fx.dbL 7 Fx.pL).2 =
       [("leaderboard:global", lowerAscii Fx.pL.donor, toNumber Fx.pL.amount),
        ("leaderboard:campaign:" ++ cid, lowerAscii Fx.pL.donor, toNumber Fx.pL.amount)]) ∧
    (findDonorByAddress Fx.dbDonor.donors (lowerAscii Fx.pDonor.donor) = some Fx.drD ∧
     ∃ dr2, findDonorByAddress (handleDonationEvent Fx.dbDonor 9 Fx.pDonor).1.donors
         (lowerAscii Fx.pDonor.donor) = some dr2 ∧
       dr2.totalDonated = Fx.drD.totalDonated + Fx.pDonor.amount ∧
       dr2.donationCount = Fx.drD.donationCount + 1) :=
  ⟨⟨by decide, c5_amended_exact_db_rounded_cache.1 Fx.dbT "cT" 5 Fx.campT (by decide)⟩,
   c5_amended_exact_db_rounded_cache.2.1 Fx.dbL 7 Fx.pL,
   ⟨by decide, c5_amended_exact_db_rounded_cache.2.2 Fx.dbDonor 9 Fx.pDonor Fx.camp1 Fx.drD
      (by decide) (by decide) (by decide)⟩⟩

/-! ## Claim theorems for the Fan-out Hub delivery condition -/

/-- Claim C9 as amended: a broadcast on a channel is delivered to a
connection exactly when the code's delivery condition holds — the
channel, or the wildcard, is in the subscription set, or the set holds
"donations" and the event type is donation — and, when connection ids
are distinct, each connection receives at most one delivery per
broadcast call. -/
theorem c9_amended_delivery_condition :
    ∀ (clients : List Client) (stream evType : String) (c : Client),
      (clients.map Client.id).Nodup → c ∈ clients →
      ((c.id ∈ broadcastToStream clients stream evType) ↔
        wantsDelivery c stream evType = true) ∧
      (broadcastToStream clients stream evType).count c.id ≤ 1 := by
  intro clients stream evType c hnd hc
  have hsub : List.Sublist
      ((clients.filter (fun x => wantsDelivery x stream evType)).map Client.id)
      (clients.map Client.id) :=
    (List.filter_sublist clients).map Client.id
  constructor
  · constructor
    · intro hmem
      obtain ⟨c', hc', hid⟩ := List.mem_map.mp hmem
      obtain ⟨hcm, hp⟩ := List.mem_filter.mp hc'
      have hcc : c' = c := List.inj_on_of_nodup_map hnd hcm hc hid
      rw [← hcc]
      exact hp
    · intro hw
      exact List.mem_map_of_mem Client.id (List.mem_filter.mpr ⟨hc, hw⟩)
  · exact List.nodup_iff_count_le_one.mp (hnd.sublist hsub) c.id

/-- Witness for C9 amended: with the single fixture client, delivery
on the donations channel matches the code condition and arrives once. -/
theorem c9_amended_witness :
    (([Fx.clientD].map Client.id).Nodup ∧ Fx.clientD ∈ [Fx.clientD]) ∧
    ((Fx.clientD.id ∈ broadcastToStream [Fx.clientD] "donations" "donation") ↔
      wantsDelivery Fx.clientD "donations" "donation" = true) ∧
    (broadcastToStream [Fx.clientD] "donations" "donation").count Fx.clientD.id ≤ 1 :=
  ⟨⟨by decide, by decide⟩,
   c9_amended_delivery_condition [Fx.clientD] "donations" "donation" Fx.clientD
     (by decide) (by decide)⟩


/-! ## Claim theorems for address normalization -/

/-- Claim C10: the donor address is lowercased before being used as a
key — in the created Donation row, the Donor upsert and the
leaderboard members of the stream path, in the Donation row created
by the ledger path, and in withdrawal matching by recipient address —
so two events differing only in the letter-case of the same address
update the same records: the resulting store states and leaderboard
keys coincide. -/
theorem c10_lowercase_address_keys :
    ∀ (db : DB) (now : Nat) (p : SdsDonationPayload) (d2 : String)
      (ev : ChainDonationEvent) (e2 : String) (ocid to1 to2 : String)
      (amt : Nat) (tx : String) (bn : Nat),
      lowerAscii p.donor = lowerAscii d2 →
      lowerAscii ev.donor = lowerAscii e2 →
      lowerAscii to1 = lowerAscii to2 →
      (handleDonationEvent db now { p with donor := d2 }).1 =
        (handleDonationEvent db now p).1 ∧
      lbIncrements (handleDonationEvent db now { p with donor := d2 }).2 =
        lbIncrements (handleDonationEvent db now p).2 ∧
      processDonationConfirmation db now { ev with donor := e2 } =
        processDonationConfirmation db now ev ∧
      handleWithdrawal db now ocid to2 amt tx bn =
        handleWithdrawal db now ocid to1 amt tx bn := by
  intro db now p d2 ev e2 ocid to1 to2 amt tx bn h1 h2 h3
  have hpair :
      (handleDonationEvent db now { p with donor := d2 }).1 =
        (handleDonationEvent db now p).1 ∧
      lbIncrements (handleDonationEvent db now { p with donor := d2 }).2 =
        lbIncrements (handleDonationEvent db now p).2 := by
    unfold handleDonationEvent
    dsimp only
    cases hfind : findDonationByTx db.donations p.txHash with
    | some d => exact ⟨rfl, rfl⟩
    | none =>
      cases hcamp : findCampaignByOnChainId db.campaigns p.campaignOnChainId with
      | none => exact ⟨rfl, rfl⟩
      | some c =>
        rw [← h1]
        exact ⟨rfl, rfl⟩
  have hproc :
      processDonationConfirmation db now { ev with donor := e2 } =
        processDonationConfirmation db now ev := by
    unfold processDonationConfirmation
    dsimp only
    cases hfind : findDonationByTx db.donations ev.txHash with
    | some d => rfl
    | none =>
      cases hcamp : findCampaignByOnChainId db.campaigns ev.campaignId with
      | none => rfl
      | some c => rw [← h2]
  have hwd :
      handleWithdrawal db now ocid to2 amt tx bn =
        handleWithdrawal db now ocid to1 amt tx bn := by
    unfold handleWithdrawal
    cases hcamp : findCampaignByOnChainId db.campaigns ocid with
    | none => rfl
    | some c => rw [← h3]
  exact ⟨hpair.1, hpair.2, hproc, hwd⟩

/-- Witness for C10 at concrete case-variant addresses. -/
theorem c10_witness :
    (lowerAscii "0xAb" = lowerAscii "0xaB" ∧
     lowerAscii "0xCd" = lowerAscii "0xcD" ∧
     lowerAscii "0xEf" = lowerAscii "0xeF") ∧
    ((handleDonationEvent Fx.dbBB 7
        { Fx.pDonor with donor := "0xaB" }).1 =
      (handleDonationEvent Fx.dbBB 7 { Fx.pDonor with donor := "0xAb" }).1 ∧
     lbIncrements (handleDonationEvent Fx.dbBB 7
        { Fx.pDonor with donor := "0xaB" }).2 =
      lbIncrements (handleDonationEvent Fx.dbBB 7 { Fx.pDonor with donor := "0xAb" }).2 ∧
     processDonationConfirmation Fx.dbBB 7 { Fx.evBB with donor := "0xcD" } =
       processDonationConfirmation Fx.dbBB 7 { Fx.evBB with donor := "0xCd" } ∧
     handleWithdrawal Fx.dbBB 7 "1" "0xeF" 5 "0xw" 3 =
       handleWithdrawal Fx.dbBB 7 "1" "0xEf" 5 "0xw" 3) :=
  ⟨⟨by decide, by decide, by decide⟩,
   c10_lowercase_address_keys Fx.dbBB 7 { Fx.pDonor with donor := "0xAb" } "0xaB"
     { Fx.evBB with donor := "0xCd" } "0xcD" "1" "0xEf" "0xeF" 5 "0xw" 3
     (by decide) (by decide) (by decide)⟩

end Luminex
